import Mathlib

/-!
Verification of the checkpointed dump/restore orchestration of
`src/bin/pgcopydb/dump_restore.c`.

The embedding models the on-disk state as an association list from paths to
file contents, and the outside world (the external `pg_dump` / `pg_restore`
tools, memory-allocation failures of `PQExpBuffer`, and I/O failures of
`write_file` / `read_file`) as an explicit environment.  Each C function is
translated into a Lean function from the file-system state to a triple
`(result, new state, trace of external tool invocations)`, mirroring the C
control flow statement by statement.
-/

/-- File-system state: an association list mapping a path to the file's
content.  A path that is present maps to its content; an absent path is a
non-existing file. -/
def FS : Type := List (String × String)

instance : DecidableEq FS := inferInstanceAs (DecidableEq (List (String × String)))

/-- Content of the file at path `p`, if it exists (models what a successful
`read_file` returns). -/
def readFS (fs : FS) (p : String) : Option String :=
  List.lookup p fs

/-- Model of `file_exists` from `file_utils.c`: true iff the path is present. -/
def file_exists (fs : FS) (p : String) : Bool :=
  (readFS fs p).isSome

/-- Overwrite (or create) the file at path `p` with content `c`: the new
binding is prepended and shadows any older binding for the same path, since
`readFS` returns the first match. -/
def writeFS (fs : FS) (p : String) (c : String) : FS :=
  (p, c) :: fs

/-- One record of an archive's table of contents, as held in
`ArchiveContentArray` (`int dumpId`, `uint32_t catalogOid`,
`uint32_t objectOid`). -/
structure ArchiveEntry where
  dumpId : Int
  catalogOid : Nat
  objectOid : Nat
deriving DecidableEq, Repr

/-- The environment: outcomes of the external tool invocations and of the
fallible I/O and allocation primitives, fixed for one call. -/
structure Env where
  /-- Paths on which `write_file` fails (disk full, permissions). -/
  writeFails : List String
  /-- Paths on which `read_file` fails even though the file exists. -/
  readFails : List String
  /-- Result of the external `pg_dump_db` invocation for the pre-data section. -/
  pgDumpPreOk : Bool
  /-- Result of the external `pg_dump_db` invocation for the post-data section. -/
  pgDumpPostOk : Bool
  /-- Result of the external `pg_restore_db` invocation for the pre-data stage. -/
  pgRestorePreOk : Bool
  /-- Result of the external `pg_restore_db` invocation for the post-data stage. -/
  pgRestorePostOk : Bool
  /-- Result of the external `pg_restore_list` table-of-contents query:
  `none` models failure of the query. -/
  pgRestoreList : Option (List ArchiveEntry)
  /-- `createPQExpBuffer()` returns NULL (allocation failure). -/
  bufferCreateFails : Bool
  /-- The `PQExpBuffer` became broken while accumulating the manifest
  (allocation failure inside `appendPQExpBuffer`, observed afterwards by
  `PQExpBufferBroken`). -/
  bufferBroken : Bool

/-- Model of `read_file`: fails on the paths of `Env.readFails`, otherwise
returns the content when the file exists. -/
def read_file (env : Env) (fs : FS) (p : String) : Option String :=
  if p ∈ env.readFails then Option.none else readFS fs p

/-- Model of `write_file`: fails on the paths of `Env.writeFails`, otherwise
overwrites the file with the given content. -/
def write_file (env : Env) (fs : FS) (p : String) (c : String) : Option FS :=
  if p ∈ env.writeFails then Option.none else Option.some (writeFS fs p c)

/-- The tracking (checkpoint) file paths of `specs->cfPaths.done`. -/
structure DoneFiles where
  preDataDump : String
  postDataDump : String
  preDataRestore : String
  postDataRestore : String
deriving DecidableEq, Repr

/-- The dump file paths of `specs->dumpPaths`. -/
structure DumpPaths where
  preFilename : String
  postFilename : String
  listFilename : String
deriving DecidableEq, Repr

/-- The parts of `CopyDataSpec` that `dump_restore.c` uses: the checkpoint
paths, the per-object checkpoint directory `cfPaths.idxdir`, and the dump
file paths. -/
structure CopyDataSpec where
  doneFiles : DoneFiles
  idxdir : String
  dumpPaths : DumpPaths
deriving DecidableEq, Repr

/-- Well-formedness of a `CopyDataSpec`: the seven file paths it names are
pairwise distinct, so writing one never clobbers another. -/
def CopyDataSpec.wf (s : CopyDataSpec) : Prop :=
  List.Pairwise (fun a b => a ≠ b)
    [s.doneFiles.preDataDump, s.doneFiles.postDataDump,
     s.doneFiles.preDataRestore, s.doneFiles.postDataRestore,
     s.dumpPaths.preFilename, s.dumpPaths.postFilename,
     s.dumpPaths.listFilename]

instance (s : CopyDataSpec) : Decidable s.wf := by
  unfold CopyDataSpec.wf
  infer_instance

/-- The `PostgresDumpSection` enumeration of `pgsql.h`. -/
inductive PostgresDumpSection where
  | schemaOnly
  | preData
  | postData
  | data
  | all
deriving DecidableEq, Repr

/-- The section test of lines 74-76: the pre-data sub-section runs for
`SCHEMA`, `PRE_DATA` and `ALL`. -/
def sectionCoversPre (s : PostgresDumpSection) : Bool :=
  s == PostgresDumpSection.schemaOnly ||
  s == PostgresDumpSection.preData ||
  s == PostgresDumpSection.all

/-- The section test of lines 103-105: the post-data sub-section runs for
`SCHEMA`, `POST_DATA` and `ALL`. -/
def sectionCoversPost (s : PostgresDumpSection) : Bool :=
  s == PostgresDumpSection.schemaOnly ||
  s == PostgresDumpSection.postData ||
  s == PostgresDumpSection.all

/-- An external tool invocation, recorded in the trace whether it succeeds
or fails. -/
inductive Event where
  /-- `pg_dump_db` with a section label and a destination path. -/
  | dump (label : String) (dest : String)
  /-- `pg_restore_db` with the archive path and the optional use-list path. -/
  | restoreDB (dumpFile : String) (listFile : Option String)
  /-- `pg_restore_list` table-of-contents query on the archive path. -/
  | restoreList (dumpFile : String)
deriving DecidableEq, Repr

/-- The section label carried by a dump event, if any. -/
def Event.dumpLabel : Event → Option String
  | Event.dump label _ => Option.some label
  | _ => Option.none

/-- True when the event is a `pg_restore_db` invocation. -/
def Event.isRestoreDB : Event → Bool
  | Event.restoreDB _ _ => true
  | _ => false

/-- `BUFSIZE`, the size of the `lines` array of
`copydb_objectid_has_been_processed_already`.  Modelled from the spec: the
constant comes from a header that is not part of the source under study;
its exact value is irrelevant to the claims, only that it is positive. -/
def BUFSIZE : Nat := 1024

/-- Segments of a character list delimited by newline characters. -/
def splitSegs : List Char → List (List Char)
  | [] => [[]]
  | c :: rest =>
    if c = '\n' then [] :: splitSegs rest
    else
      match splitSegs rest with
      | [] => [[c]]
      | s :: ss => (c :: s) :: ss

/-- Modelled from the spec: `splitLines` of `string_utils.c` is not part of
the source; the spec describes the pattern as "reading a file and inspecting
only its last line", with an empty file yielding zero lines.  The model
splits the buffer at newlines, drops the empty segment a trailing newline
would produce (the C loop does not count a line after a final newline), and
caps the count at the array size. -/
def splitLines (s : String) : List String :=
  let segs := (splitSegs s.data).map (fun l => String.mk l)
  (if segs.getLast? = Option.some "" then segs.dropLast else segs).take BUFSIZE

/-- The path of the per-object checkpoint (done file) for a target object
OID, as built by `sformat` at lines 35-37: `<idxdir>/<oid>.done`. -/
def objectDoneFile (specs : CopyDataSpec) (oid : Nat) : String :=
  specs.idxdir ++ "/" ++ toString oid ++ ".done"

/-- Model of `copydb_objectid_has_been_processed_already` (lines 29-62):
returns true when the per-object done file exists.  When it exists the C
code also reads the file (tolerating a failed read), splits it into lines
and passes `lines[lineCount - 1]` to `log_debug`; that read affects only
the log message, not the returned value. -/
def copydb_objectid_has_been_processed_already
    (specs : CopyDataSpec) (env : Env) (fs : FS) (oid : Nat) : Bool :=
  let doneFile := objectDoneFile specs oid
  if file_exists fs doneFile then
    let sql := (read_file env fs doneFile).getD ""
    let _lineCount := (splitLines sql).length
    true
  else
    false

/-- The index `lineCount - 1` (as a signed integer, as in C) at which line
53 reads the `lines` array when the done file exists. -/
def objectDoneDebugIndex (specs : CopyDataSpec) (env : Env) (fs : FS) (oid : Nat) : Int :=
  let sql := (read_file env fs (objectDoneFile specs oid)).getD ""
  ((splitLines sql).length : Int) - 1

/-- The access `lines[i]` is within the bounds of the `char *lines[BUFSIZE]`
array iff `0 ≤ i < BUFSIZE`. -/
def debugAccessInBounds (i : Int) : Prop :=
  0 ≤ i ∧ i < (BUFSIZE : Int)

instance (i : Int) : Decidable (debugAccessInBounds i) := by
  unfold debugAccessInBounds
  infer_instance

/-- One manifest line as `appendPQExpBuffer` formats it at lines 240-244:
`"%s%d; %u %u\n"` with the `";"` comment marker as prefix exactly when the
object has already been processed. -/
def manifestLine (specs : CopyDataSpec) (env : Env) (fs : FS) (e : ArchiveEntry) : String :=
  let pfx := if copydb_objectid_has_been_processed_already specs env fs e.objectOid
             then ";" else ""
  pfx ++ toString e.dumpId ++ "; " ++ toString e.catalogOid ++ " " ++
    toString e.objectOid ++ "\n"

/-- The manifest accumulated into the `PQExpBuffer` by the loop at lines
232-245: the lines of all entries, appended in input order. -/
def buildManifest (specs : CopyDataSpec) (env : Env) (fs : FS)
    (entries : List ArchiveEntry) : String :=
  entries.foldl (fun acc e => acc ++ manifestLine specs env fs e) ""

/-- Placeholder content of an archive file produced by a successful
`pg_dump_db` invocation. -/
def archiveContent : String := "<archive>"

/-- One sub-section of `copydb_dump_source_schema` (the block at lines
78-100 for pre-data, 107-129 for post-data): skip the `pg_dump_db`
invocation when the done file exists, otherwise invoke it and fail on a
failed invocation; in both remaining cases (skip or successful dump)
rewrite the done file with empty content, failing when that write fails. -/
def runDumpSub (env : Env) (dumpOk : Bool) (label doneFile destFile : String)
    (fs : FS) : Bool × FS × List Event :=
  if file_exists fs doneFile then
    match write_file env fs doneFile "" with
    | Option.some fs2 => (true, fs2, [])
    | Option.none => (false, fs, [])
  else if dumpOk then
    let fs1 := writeFS fs destFile archiveContent
    match write_file env fs1 doneFile "" with
    | Option.some fs2 => (true, fs2, [Event.dump label destFile])
    | Option.none => (false, fs1, [Event.dump label destFile])
  else
    (false, fs, [Event.dump label destFile])

/-- Model of `copydb_dump_source_schema` (lines 69-133): run the pre-data
sub-section when the section covers it, returning its error if it fails,
then likewise the post-data sub-section. -/
def copydb_dump_source_schema (specs : CopyDataSpec) (env : Env)
    (sect : PostgresDumpSection) (fs : FS) : Bool × FS × List Event :=
  let pre :=
    if sectionCoversPre sect then
      runDumpSub env env.pgDumpPreOk "pre-data"
        specs.doneFiles.preDataDump specs.dumpPaths.preFilename fs
    else
      (true, fs, [])
  match pre with
  | (false, fs1, tr1) => (false, fs1, tr1)
  | (true, fs1, tr1) =>
    if sectionCoversPost sect then
      match runDumpSub env env.pgDumpPostOk "post-data"
          specs.doneFiles.postDataDump specs.dumpPaths.postFilename fs1 with
      | (ok2, fs2, tr2) => (ok2, fs2, tr1 ++ tr2)
    else
      (true, fs1, tr1)

/-- Model of `copydb_target_prepare_schema` (lines 140-175): fatal error
when the pre-data dump file is absent; skip with success when the pre-data
restore done file exists; otherwise invoke `pg_restore_db` without a
use-list, fail on a failed invocation, and finally write the done file,
failing when that write fails. -/
def copydb_target_prepare_schema (specs : CopyDataSpec) (env : Env)
    (fs : FS) : Bool × FS × List Event :=
  if !(file_exists fs specs.dumpPaths.preFilename) then
    (false, fs, [])
  else if file_exists fs specs.doneFiles.preDataRestore then
    (true, fs, [])
  else
    let tr := [Event.restoreDB specs.dumpPaths.preFilename Option.none]
    if env.pgRestorePreOk then
      match write_file env fs specs.doneFiles.preDataRestore "" with
      | Option.some fs2 => (true, fs2, tr)
      | Option.none => (false, fs, tr)
    else
      (false, fs, tr)

/-- Model of `copydb_target_finalize_schema` (lines 183-285): fatal error
when the post-data dump file is absent; skip with success when the
post-data restore done file exists; otherwise query the archive's table of
contents, build the filtered manifest into a `PQExpBuffer` (failing when
the buffer cannot be created or went broken), write it to the list file,
invoke `pg_restore_db` with that use-list, and finally write the done
file; each failure along the way returns an error at that point. -/
def copydb_target_finalize_schema (specs : CopyDataSpec) (env : Env)
    (fs : FS) : Bool × FS × List Event :=
  if !(file_exists fs specs.dumpPaths.postFilename) then
    (false, fs, [])
  else if file_exists fs specs.doneFiles.postDataRestore then
    (true, fs, [])
  else
    match env.pgRestoreList with
    | Option.none => (false, fs, [Event.restoreList specs.dumpPaths.postFilename])
    | Option.some contents =>
      let tr0 := [Event.restoreList specs.dumpPaths.postFilename]
      if env.bufferCreateFails then
        (false, fs, tr0)
      else
        let listContents := buildManifest specs env fs contents
        if env.bufferBroken then
          (false, fs, tr0)
        else
          match write_file env fs specs.dumpPaths.listFilename listContents with
          | Option.none => (false, fs, tr0)
          | Option.some fs1 =>
            let tr1 := tr0 ++ [Event.restoreDB specs.dumpPaths.postFilename
                                 (Option.some specs.dumpPaths.listFilename)]
            if env.pgRestorePostOk then
              match write_file env fs1 specs.doneFiles.postDataRestore "" with
              | Option.some fs2 => (true, fs2, tr1)
              | Option.none => (false, fs1, tr1)
            else
              (false, fs1, tr1)

/-! ### Frame lemmas about the file-system model -/

theorem readFS_writeFS_self (fs : FS) (p c : String) :
    readFS (writeFS fs p c) p = Option.some c := by
  simp [readFS, writeFS, List.lookup]

theorem readFS_writeFS_ne (fs : FS) (p q c : String) (h : q ≠ p) :
    readFS (writeFS fs p c) q = readFS fs q := by
  have hqk : (q == p) = false := by simp [h]
  simp [readFS, writeFS, List.lookup, hqk]

theorem file_exists_writeFS_self (fs : FS) (p c : String) :
    file_exists (writeFS fs p c) p = true := by
  simp [file_exists, readFS_writeFS_self]

theorem file_exists_writeFS_ne (fs : FS) (p q c : String) (h : q ≠ p) :
    file_exists (writeFS fs p c) q = file_exists fs q := by
  simp [file_exists, readFS_writeFS_ne fs p q c h]

/-! ### Concrete fixtures used by witness instances -/

/-- Concrete working-directory paths for witness instances. -/
def demoSpecs : CopyDataSpec :=
  ⟨⟨"w/pre.dump.done", "w/post.dump.done", "w/pre.restore.done", "w/post.restore.done"⟩,
   "w/idx",
   ⟨"w/pre.dump", "w/post.dump", "w/post.list"⟩⟩

/-- An environment in which every external invocation and every I/O
primitive succeeds. -/
def demoEnv : Env :=
  ⟨[], [], true, true, true, true, Option.some [], false, false⟩

/-! ### Behaviour of the per-object checkpoint lookup -/

/-- The lookup returns exactly the existence test on the object's done
file; the content read feeds only the debug log. -/
theorem processed_eq_file_exists (specs : CopyDataSpec) (env : Env) (fs : FS)
    (oid : Nat) :
    copydb_objectid_has_been_processed_already specs env fs oid
      = file_exists fs (objectDoneFile specs oid) := by
  unfold copydb_objectid_has_been_processed_already
  by_cases h : file_exists fs (objectDoneFile specs oid) <;> simp [h]

/-- C7: for every object OID and every on-disk state,
`copydb_objectid_has_been_processed_already` returns true iff the object's
marker file exists, and the returned value is independent of the marker
file's content — two states and environments agreeing on the marker's
existence (one possibly with unreadable or different content) yield the
same result. -/
theorem C7_processed_iff_marker_exists (specs : CopyDataSpec) (env env2 : Env)
    (fs fs2 : FS) (oid : Nat) :
    copydb_objectid_has_been_processed_already specs env fs oid
      = file_exists fs (objectDoneFile specs oid)
    ∧ (file_exists fs (objectDoneFile specs oid)
         = file_exists fs2 (objectDoneFile specs oid) →
       copydb_objectid_has_been_processed_already specs env fs oid
         = copydb_objectid_has_been_processed_already specs env2 fs2 oid) := by
  refine ⟨processed_eq_file_exists specs env fs oid, fun h => ?_⟩
  rw [processed_eq_file_exists specs env fs oid,
      processed_eq_file_exists specs env2 fs2 oid, h]

/-- C7 witness: a marker file with content "line" and a marker file whose
content cannot be read at all give the same positive answer. -/
theorem C7_witness :
    (file_exists [(objectDoneFile demoSpecs 100, "line")] (objectDoneFile demoSpecs 100)
       = file_exists [(objectDoneFile demoSpecs 100, "")] (objectDoneFile demoSpecs 100))
    ∧ copydb_objectid_has_been_processed_already demoSpecs demoEnv
        [(objectDoneFile demoSpecs 100, "line")] 100
      = copydb_objectid_has_been_processed_already demoSpecs
          ⟨[], [objectDoneFile demoSpecs 100], true, true, true, true,
           Option.some [], false, false⟩
          [(objectDoneFile demoSpecs 100, "")] 100 :=
  ⟨by decide,
   (C7_processed_iff_marker_exists demoSpecs demoEnv
      ⟨[], [objectDoneFile demoSpecs 100], true, true, true, true,
       Option.some [], false, false⟩
      [(objectDoneFile demoSpecs 100, "line")]
      [(objectDoneFile demoSpecs 100, "")] 100).2 (by decide)⟩

/-! ### Precondition enforcement of the restore stages -/

/-- C3: whenever the corresponding dump file is absent, each restore stage
returns a fatal error with the file system untouched (no manifest file, no
checkpoint write) and an empty invocation trace (no restore tool
invocation, no table-of-contents query) — regardless of whether the
stage's phase checkpoint exists. -/
theorem C3_missing_dump_file_fatal (specs : CopyDataSpec) (env : Env) (fs : FS) :
    (file_exists fs specs.dumpPaths.preFilename = false →
       copydb_target_prepare_schema specs env fs = (false, fs, []))
    ∧ (file_exists fs specs.dumpPaths.postFilename = false →
       copydb_target_finalize_schema specs env fs = (false, fs, [])) := by
  constructor
  · intro h
    simp [copydb_target_prepare_schema, h]
  · intro h
    simp [copydb_target_finalize_schema, h]

/-- A state holding both restore-phase checkpoints but no dump files. -/
def fsMarkersOnly : FS :=
  [(demoSpecs.doneFiles.preDataRestore, ""), (demoSpecs.doneFiles.postDataRestore, "")]

/-- C3 witness: with both phase checkpoints present but the dump files
absent, both restore stages fail fatally without any state change or
external invocation. -/
theorem C3_witness :
    (file_exists fsMarkersOnly demoSpecs.dumpPaths.preFilename = false
      ∧ copydb_target_prepare_schema demoSpecs demoEnv fsMarkersOnly
          = (false, fsMarkersOnly, []))
    ∧ (file_exists fsMarkersOnly demoSpecs.dumpPaths.postFilename = false
      ∧ copydb_target_finalize_schema demoSpecs demoEnv fsMarkersOnly
          = (false, fsMarkersOnly, [])) :=
  ⟨⟨by decide,
    (C3_missing_dump_file_fatal demoSpecs demoEnv fsMarkersOnly).1 (by decide)⟩,
   ⟨by decide,
    (C3_missing_dump_file_fatal demoSpecs demoEnv fsMarkersOnly).2 (by decide)⟩⟩

/-! ### The filtered manifest -/

/-- The spec's wording for one manifest line (without the final newline):
`<prefix><dumpId>; <catalogOid> <objectOid>` where `<prefix>` is the single
comment marker character exactly when the entry's object has an object
checkpoint, and empty otherwise. -/
def specManifestLine (checkpointed : Bool) (dumpId : Int)
    (catalogOid objectOid : Nat) : String :=
  (if checkpointed then ";" else "") ++ toString dumpId ++ "; "
    ++ toString catalogOid ++ " " ++ toString objectOid

/-- The accumulated manifest is the concatenation of the per-entry lines in
input order. -/
theorem buildManifest_eq_join (specs : CopyDataSpec) (env : Env) (fs : FS)
    (entries : List ArchiveEntry) :
    buildManifest specs env fs entries
      = String.join (entries.map (manifestLine specs env fs)) := by
  simp [buildManifest, String.join, List.foldl_map]

/-- Each manifest line matches the spec's wording, with the checkpoint test
being existence of the object's done file. -/
theorem manifestLine_eq_spec (specs : CopyDataSpec) (env : Env) (fs : FS)
    (e : ArchiveEntry) :
    manifestLine specs env fs e
      = specManifestLine (file_exists fs (objectDoneFile specs e.objectOid))
          e.dumpId e.catalogOid e.objectOid ++ "\n" := by
  simp only [manifestLine, specManifestLine, processed_eq_file_exists]

/-- The checkpoint store of the concrete scenario: object 100 has an object
checkpoint, object 101 does not. -/
def fsScenario : FS := [(objectDoneFile demoSpecs 100, "")]

/-- The archive table of contents of the concrete scenario. -/
def scenarioEntries : List ArchiveEntry := [⟨1, 2608, 100⟩, ⟨2, 2608, 101⟩]

/-- C1: the manifest holds exactly one line per entry, line `i` being
`<dumpId>; <catalogOid> <objectOid>` of entry `i` followed by a newline,
prefixed with the single character `;` exactly when entry `i`'s objectOid
has an object checkpoint; in the concrete scenario with entries
`[(1,2608,100),(2,2608,101)]` and a checkpoint for OID 100 only, the
manifest lines are `";1; 2608 100"` and `"2; 2608 101"`. -/
theorem C1_manifest_format (specs : CopyDataSpec) (env : Env) (fs : FS)
    (entries : List ArchiveEntry) :
    buildManifest specs env fs entries
      = String.join (entries.map (fun e =>
          specManifestLine (file_exists fs (objectDoneFile specs e.objectOid))
            e.dumpId e.catalogOid e.objectOid ++ "\n"))
    ∧ (entries.map (fun e =>
          specManifestLine (file_exists fs (objectDoneFile specs e.objectOid))
            e.dumpId e.catalogOid e.objectOid)).length = entries.length
    ∧ (scenarioEntries.map (fun e =>
          specManifestLine (file_exists fsScenario (objectDoneFile demoSpecs e.objectOid))
            e.dumpId e.catalogOid e.objectOid))
        = [";1; 2608 100", "2; 2608 101"]
    ∧ buildManifest demoSpecs demoEnv fsScenario scenarioEntries
        = ";1; 2608 100\n2; 2608 101\n" := by
  refine ⟨?_, List.length_map _ _, by decide, by decide⟩
  rw [buildManifest_eq_join]
  have h : manifestLine specs env fs = fun e =>
      specManifestLine (file_exists fs (objectDoneFile specs e.objectOid))
        e.dumpId e.catalogOid e.objectOid ++ "\n" :=
    funext fun e => manifestLine_eq_spec specs env fs e
  rw [h]

/-- C4: the filtered manifest lists its entries in exactly the input order:
the line list has the input's length, its `i`-th line is produced from the
`i`-th input entry, and the manifest is their in-order concatenation. -/
theorem C4_order_preserved (specs : CopyDataSpec) (env : Env) (fs : FS)
    (entries : List ArchiveEntry) :
    (entries.map (manifestLine specs env fs)).length = entries.length
    ∧ (∀ i : Nat, (entries.map (manifestLine specs env fs)).get? i
        = (entries.get? i).map (manifestLine specs env fs))
    ∧ buildManifest specs env fs entries
        = String.join (entries.map (manifestLine specs env fs)) :=
  ⟨List.length_map _ _,
   fun i => by simp [List.get?_eq_getElem?, List.getElem?_map],
   buildManifest_eq_join specs env fs entries⟩

/-! ### The out-of-bounds debug access (C9) -/

/-- C9: refuted on the code — with the marker file present but empty (or
unreadable), `splitLines` yields zero lines, so the debug message at line
53 reads `lines[lineCount - 1] = lines[-1]`, outside the bounds of the
`char *lines[BUFSIZE]` array, while the function still reports the object
as processed. -/
theorem C9_debug_index_out_of_bounds :
    file_exists [(objectDoneFile demoSpecs 100, "")] (objectDoneFile demoSpecs 100) = true
    ∧ copydb_objectid_has_been_processed_already demoSpecs demoEnv
        [(objectDoneFile demoSpecs 100, "")] 100 = true
    ∧ objectDoneDebugIndex demoSpecs demoEnv
        [(objectDoneFile demoSpecs 100, "")] 100 = -1
    ∧ ¬ debugAccessInBounds
        (objectDoneDebugIndex demoSpecs demoEnv
          [(objectDoneFile demoSpecs 100, "")] 100) := by
  refine ⟨by decide, by decide, by decide, by decide⟩

/-! ### Characterization of the dump sub-sections -/

/-- The pre-data block of `copydb_dump_source_schema` (lines 78-100). -/
def preDumpSub (specs : CopyDataSpec) (env : Env) (fs : FS) : Bool × FS × List Event :=
  runDumpSub env env.pgDumpPreOk "pre-data"
    specs.doneFiles.preDataDump specs.dumpPaths.preFilename fs

/-- The post-data block of `copydb_dump_source_schema` (lines 107-129). -/
def postDumpSub (specs : CopyDataSpec) (env : Env) (fs : FS) : Bool × FS × List Event :=
  runDumpSub env env.pgDumpPostOk "post-data"
    specs.doneFiles.postDataDump specs.dumpPaths.postFilename fs

theorem sectionCoversPre_schemaOnly :
    sectionCoversPre PostgresDumpSection.schemaOnly = true := rfl

theorem sectionCoversPre_preData :
    sectionCoversPre PostgresDumpSection.preData = true := rfl

theorem sectionCoversPre_all :
    sectionCoversPre PostgresDumpSection.all = true := rfl

theorem sectionCoversPost_schemaOnly :
    sectionCoversPost PostgresDumpSection.schemaOnly = true := rfl

theorem sectionCoversPost_preData :
    sectionCoversPost PostgresDumpSection.preData = false := rfl

theorem sectionCoversPost_postData :
    sectionCoversPost PostgresDumpSection.postData = true := rfl

theorem sectionCoversPre_postData :
    sectionCoversPre PostgresDumpSection.postData = false := rfl

theorem sectionCoversPost_all :
    sectionCoversPost PostgresDumpSection.all = true := rfl

/-- On the skip path (done file present) the sub-section performs no dump
invocation: it only rewrites the done file, and fails iff that write
fails. -/
theorem runDumpSub_skip (env : Env) (dumpOk : Bool) (label doneFile destFile : String)
    (fs : FS) (h : file_exists fs doneFile = true) :
    runDumpSub env dumpOk label doneFile destFile fs
      = if doneFile ∈ env.writeFails then (false, fs, [])
        else (true, writeFS fs doneFile "", []) := by
  by_cases hw : doneFile ∈ env.writeFails <;>
    simp [runDumpSub, h, write_file, hw]

/-- When the done file is absent and the dump invocation fails, the
sub-section fails with the state untouched, after one dump invocation. -/
theorem runDumpSub_dumpFail (env : Env) (label doneFile destFile : String)
    (fs : FS) (h : file_exists fs doneFile = false) :
    runDumpSub env false label doneFile destFile fs
      = (false, fs, [Event.dump label destFile]) := by
  simp [runDumpSub, h]

/-- When the done file is absent and the dump invocation succeeds, the
archive is written, then the done file; failure of that write fails the
sub-section with the archive on disk but no done file. -/
theorem runDumpSub_dumpOk (env : Env) (label doneFile destFile : String)
    (fs : FS) (h : file_exists fs doneFile = false) :
    runDumpSub env true label doneFile destFile fs
      = if doneFile ∈ env.writeFails then
          (false, writeFS fs destFile archiveContent, [Event.dump label destFile])
        else
          (true, writeFS (writeFS fs destFile archiveContent) doneFile "",
           [Event.dump label destFile]) := by
  by_cases hw : doneFile ∈ env.writeFails <;>
    simp [runDumpSub, h, write_file, hw]

/-- `copydb_dump_source_schema` with the pre-data section is exactly the
pre-data block. -/
theorem dump_preData_unfold (specs : CopyDataSpec) (env : Env) (fs : FS) :
    copydb_dump_source_schema specs env PostgresDumpSection.preData fs
      = preDumpSub specs env fs := by
  simp only [copydb_dump_source_schema, sectionCoversPre_preData,
    sectionCoversPost_preData, if_true, preDumpSub]
  rcases h : runDumpSub env env.pgDumpPreOk "pre-data"
      specs.doneFiles.preDataDump specs.dumpPaths.preFilename fs with ⟨ok, fs1, tr1⟩
  cases ok <;> simp

/-- `copydb_dump_source_schema` with the post-data section is exactly the
post-data block. -/
theorem dump_postData_unfold (specs : CopyDataSpec) (env : Env) (fs : FS) :
    copydb_dump_source_schema specs env PostgresDumpSection.postData fs
      = postDumpSub specs env fs := by
  simp only [copydb_dump_source_schema, sectionCoversPre_postData,
    sectionCoversPost_postData, if_true, if_false, postDumpSub]
  rcases h : runDumpSub env env.pgDumpPostOk "post-data"
      specs.doneFiles.postDataDump specs.dumpPaths.postFilename fs with ⟨ok, fs1, tr1⟩
  cases ok <;> simp [h]

/-- For a section covering both sub-sections, the call runs the pre-data
block first; on its failure it stops there, otherwise it continues with the
post-data block on the pre-data block's resulting state, concatenating the
traces. -/
theorem dump_both_unfold (specs : CopyDataSpec) (env : Env)
    (sect : PostgresDumpSection) (fs : FS)
    (hpre : sectionCoversPre sect = true) (hpost : sectionCoversPost sect = true) :
    copydb_dump_source_schema specs env sect fs
      = if (preDumpSub specs env fs).1 then
          ((postDumpSub specs env (preDumpSub specs env fs).2.1).1,
           (postDumpSub specs env (preDumpSub specs env fs).2.1).2.1,
           (preDumpSub specs env fs).2.2
             ++ (postDumpSub specs env (preDumpSub specs env fs).2.1).2.2)
        else preDumpSub specs env fs := by
  simp only [copydb_dump_source_schema, hpre, hpost, if_true, preDumpSub, postDumpSub]
  rcases h : runDumpSub env env.pgDumpPreOk "pre-data"
      specs.doneFiles.preDataDump specs.dumpPaths.preFilename fs with ⟨ok, fs1, tr1⟩
  cases ok
  · simp
  · rcases h2 : runDumpSub env env.pgDumpPostOk "post-data"
        specs.doneFiles.postDataDump specs.dumpPaths.postFilename fs1 with ⟨ok2, fs2, tr2⟩
    simp [h2]

/-! ### Idempotent skip of completed phases (C2) -/

/-- An environment identical to `demoEnv` except that writing the pre-data
dump done file fails. -/
def envWriteFailPreDone : Env :=
  ⟨["w/pre.dump.done"], [], true, true, true, true, Option.some [], false, false⟩

/-- C2 counterexample: with the pre-data dump phase checkpoint already
present, `copydb_dump_source_schema` performs no dump invocation, yet
returns an error instead of success, because the skip path still rewrites
the done file and that write fails.  This refutes the claim that a phase
whose checkpoint exists always returns success. -/
theorem C2_counterexample :
    file_exists [("w/pre.dump.done", "")] demoSpecs.doneFiles.preDataDump = true
    ∧ (copydb_dump_source_schema demoSpecs envWriteFailPreDone
        PostgresDumpSection.preData [("w/pre.dump.done", "")]).2.2 = []
    ∧ (copydb_dump_source_schema demoSpecs envWriteFailPreDone
        PostgresDumpSection.preData [("w/pre.dump.done", "")]).1 = false := by
  refine ⟨by decide, by decide, by decide⟩

/-- C2 amended: invoking a phase whose checkpoint already exists performs
no external dump/restore tool invocation; the restore stages additionally
return success with no state change, while the dump stages return success
iff the rewrite of the phase's done file — still performed on the skip
path — succeeds. -/
theorem C2_amended_skip (specs : CopyDataSpec) (env : Env) (fs : FS) :
    (file_exists fs specs.dumpPaths.preFilename = true →
     file_exists fs specs.doneFiles.preDataRestore = true →
       copydb_target_prepare_schema specs env fs = (true, fs, []))
    ∧ (file_exists fs specs.dumpPaths.postFilename = true →
       file_exists fs specs.doneFiles.postDataRestore = true →
         copydb_target_finalize_schema specs env fs = (true, fs, []))
    ∧ (file_exists fs specs.doneFiles.preDataDump = true →
        (copydb_dump_source_schema specs env PostgresDumpSection.preData fs).2.2 = []
        ∧ ((copydb_dump_source_schema specs env PostgresDumpSection.preData fs).1 = true
            ↔ specs.doneFiles.preDataDump ∉ env.writeFails))
    ∧ (file_exists fs specs.doneFiles.postDataDump = true →
        (copydb_dump_source_schema specs env PostgresDumpSection.postData fs).2.2 = []
        ∧ ((copydb_dump_source_schema specs env PostgresDumpSection.postData fs).1 = true
            ↔ specs.doneFiles.postDataDump ∉ env.writeFails)) := by
  refine ⟨?_, ?_, ?_, ?_⟩
  · intro h1 h2
    simp [copydb_target_prepare_schema, h1, h2]
  · intro h1 h2
    simp [copydb_target_finalize_schema, h1, h2]
  · intro h
    rw [dump_preData_unfold, preDumpSub,
      runDumpSub_skip env env.pgDumpPreOk "pre-data"
        specs.doneFiles.preDataDump specs.dumpPaths.preFilename fs h]
    by_cases hw : specs.doneFiles.preDataDump ∈ env.writeFails <;> simp [hw]
  · intro h
    rw [dump_postData_unfold, postDumpSub,
      runDumpSub_skip env env.pgDumpPostOk "post-data"
        specs.doneFiles.postDataDump specs.dumpPaths.postFilename fs h]
    by_cases hw : specs.doneFiles.postDataDump ∈ env.writeFails <;> simp [hw]

/-- A state in which both dump files and all four phase checkpoints exist. -/
def fsAllDone : FS :=
  [("w/pre.dump", "<archive>"), ("w/post.dump", "<archive>"),
   ("w/pre.dump.done", ""), ("w/post.dump.done", ""),
   ("w/pre.restore.done", ""), ("w/post.restore.done", "")]

/-- C2 witness: in a fully completed working directory with all writes
succeeding, both restore stages and both dump sections skip their work,
perform no external invocation and return success. -/
theorem C2_witness :
    copydb_target_prepare_schema demoSpecs demoEnv fsAllDone = (true, fsAllDone, [])
    ∧ copydb_target_finalize_schema demoSpecs demoEnv fsAllDone = (true, fsAllDone, [])
    ∧ ((copydb_dump_source_schema demoSpecs demoEnv PostgresDumpSection.preData fsAllDone).2.2 = []
        ∧ ((copydb_dump_source_schema demoSpecs demoEnv PostgresDumpSection.preData fsAllDone).1 = true
            ↔ demoSpecs.doneFiles.preDataDump ∉ demoEnv.writeFails))
    ∧ ((copydb_dump_source_schema demoSpecs demoEnv PostgresDumpSection.postData fsAllDone).2.2 = []
        ∧ ((copydb_dump_source_schema demoSpecs demoEnv PostgresDumpSection.postData fsAllDone).1 = true
            ↔ demoSpecs.doneFiles.postDataDump ∉ demoEnv.writeFails)) :=
  ⟨(C2_amended_skip demoSpecs demoEnv fsAllDone).1 (by decide) (by decide),
   (C2_amended_skip demoSpecs demoEnv fsAllDone).2.1 (by decide) (by decide),
   (C2_amended_skip demoSpecs demoEnv fsAllDone).2.2.1 (by decide),
   (C2_amended_skip demoSpecs demoEnv fsAllDone).2.2.2 (by decide)⟩

/-! ### Path distinctness consequences -/

/-- The path inequalities extracted from well-formedness that the frame
arguments below use. -/
theorem wf_facts (specs : CopyDataSpec) (h : specs.wf) :
    specs.doneFiles.postDataDump ≠ specs.doneFiles.preDataDump
    ∧ specs.doneFiles.postDataDump ≠ specs.dumpPaths.preFilename
    ∧ specs.doneFiles.postDataRestore ≠ specs.dumpPaths.listFilename := by
  unfold CopyDataSpec.wf at h
  simp only [List.pairwise_cons, List.mem_cons, List.mem_singleton,
    List.not_mem_nil] at h
  refine ⟨?_, ?_, ?_⟩
  · exact fun he => (h.1 specs.doneFiles.postDataDump (by simp)) he.symm
  · exact h.2.1 specs.dumpPaths.preFilename (by simp)
  · exact h.2.2.2.1 specs.dumpPaths.listFilename (by simp)

/-- A dump sub-section only ever touches its done file and its destination
file: every other path keeps its content. -/
theorem runDumpSub_frame (env : Env) (dumpOk : Bool)
    (label doneFile destFile : String) (fs : FS) (p : String)
    (h1 : p ≠ doneFile) (h2 : p ≠ destFile) :
    readFS (runDumpSub env dumpOk label doneFile destFile fs).2.1 p = readFS fs p := by
  unfold runDumpSub
  by_cases hx : file_exists fs doneFile
  · by_cases hw : doneFile ∈ env.writeFails <;>
      simp [hx, write_file, hw, readFS_writeFS_ne _ _ _ _ h1]
  · cases dumpOk
    · simp [hx]
    · by_cases hw : doneFile ∈ env.writeFails <;>
        simp [hx, write_file, hw, readFS_writeFS_ne _ _ _ _ h1,
          readFS_writeFS_ne _ _ _ _ h2]

/-- Existence form of the frame property of a dump sub-section. -/
theorem runDumpSub_frame_exists (env : Env) (dumpOk : Bool)
    (label doneFile destFile : String) (fs : FS) (p : String)
    (h1 : p ≠ doneFile) (h2 : p ≠ destFile) :
    file_exists (runDumpSub env dumpOk label doneFile destFile fs).2.1 p
      = file_exists fs p := by
  unfold file_exists
  rw [runDumpSub_frame env dumpOk label doneFile destFile fs p h1 h2]

/-! ### Manifest build or write failures abort before any restore (C5) -/

/-- C5: once past the preconditions, a broken or unallocatable manifest
buffer aborts `copydb_target_finalize_schema` with an error before the
manifest file is written and before any `pg_restore_db` invocation; a
failure to write the completed manifest file equally aborts with an error
and no restore; and in every outcome the manifest file on disk is either
untouched or holds the complete manifest — never a truncated one. -/
theorem C5_manifest_failure_aborts (specs : CopyDataSpec) (env : Env) (fs : FS)
    (hdump : file_exists fs specs.dumpPaths.postFilename = true)
    (hmark : file_exists fs specs.doneFiles.postDataRestore = false) :
    (env.bufferCreateFails = true ∨ env.bufferBroken = true →
       copydb_target_finalize_schema specs env fs
         = (false, fs, [Event.restoreList specs.dumpPaths.postFilename]))
    ∧ (specs.dumpPaths.listFilename ∈ env.writeFails →
       copydb_target_finalize_schema specs env fs
         = (false, fs, [Event.restoreList specs.dumpPaths.postFilename]))
    ∧ (specs.wf →
       ∀ contents, env.pgRestoreList = Option.some contents →
         readFS (copydb_target_finalize_schema specs env fs).2.1
             specs.dumpPaths.listFilename
           = readFS fs specs.dumpPaths.listFilename
         ∨ readFS (copydb_target_finalize_schema specs env fs).2.1
             specs.dumpPaths.listFilename
           = Option.some (buildManifest specs env fs contents)) := by
  refine ⟨?_, ?_, ?_⟩
  · intro hb
    cases hl : env.pgRestoreList with
    | none => simp [copydb_target_finalize_schema, hdump, hmark, hl]
    | some contents =>
      rcases hb with hb | hb <;>
        simp [copydb_target_finalize_schema, hdump, hmark, hl, hb]
  · intro hw
    cases hl : env.pgRestoreList with
    | none => simp [copydb_target_finalize_schema, hdump, hmark, hl]
    | some contents =>
      by_cases hc : env.bufferCreateFails <;>
        by_cases hb : env.bufferBroken <;>
          simp [copydb_target_finalize_schema, hdump, hmark, hl, hc, hb,
            write_file, hw]
  · intro hwf contents hl
    have hne : specs.doneFiles.postDataRestore ≠ specs.dumpPaths.listFilename :=
      (wf_facts specs hwf).2.2
    by_cases hc : env.bufferCreateFails
    · left
      simp [copydb_target_finalize_schema, hdump, hmark, hl, hc]
    · by_cases hb : env.bufferBroken
      · left
        simp [copydb_target_finalize_schema, hdump, hmark, hl, hc, hb]
      · by_cases hw : specs.dumpPaths.listFilename ∈ env.writeFails
        · left
          simp [copydb_target_finalize_schema, hdump, hmark, hl, hc, hb,
            write_file, hw]
        · right
          by_cases hr : env.pgRestorePostOk
          · by_cases hw2 : specs.doneFiles.postDataRestore ∈ env.writeFails <;>
              simp [copydb_target_finalize_schema, hdump, hmark, hl, hc, hb,
                write_file, hw, hr, hw2, readFS_writeFS_ne _ _ _ _ hne.symm,
                readFS_writeFS_self]
          · simp [copydb_target_finalize_schema, hdump, hmark, hl, hc, hb,
              write_file, hw, hr, readFS_writeFS_self]

/-- C5 witness: with the post-data dump present, the checkpoint absent and
a broken manifest buffer, the stage fails with only the list query
performed; the same holds when the manifest file write fails; and with a
well-formed spec the manifest file invariant holds. -/
theorem C5_witness :
    copydb_target_finalize_schema demoSpecs
        ⟨[], [], true, true, true, true, Option.some [⟨1, 2608, 100⟩], false, true⟩
        [("w/post.dump", "<archive>")]
      = (false, [("w/post.dump", "<archive>")], [Event.restoreList "w/post.dump"])
    ∧ copydb_target_finalize_schema demoSpecs
        ⟨["w/post.list"], [], true, true, true, true, Option.some [⟨1, 2608, 100⟩], false, false⟩
        [("w/post.dump", "<archive>")]
      = (false, [("w/post.dump", "<archive>")], [Event.restoreList "w/post.dump"])
    ∧ (readFS (copydb_target_finalize_schema demoSpecs demoEnv
          [("w/post.dump", "<archive>")]).2.1 demoSpecs.dumpPaths.listFilename
        = readFS [("w/post.dump", "<archive>")] demoSpecs.dumpPaths.listFilename
       ∨ readFS (copydb_target_finalize_schema demoSpecs demoEnv
          [("w/post.dump", "<archive>")]).2.1 demoSpecs.dumpPaths.listFilename
        = Option.some (buildManifest demoSpecs demoEnv [("w/post.dump", "<archive>")] [])) :=
  ⟨(C5_manifest_failure_aborts demoSpecs
      ⟨[], [], true, true, true, true, Option.some [⟨1, 2608, 100⟩], false, true⟩
      [("w/post.dump", "<archive>")] (by decide) (by decide)).1 (Or.inr rfl),
   (C5_manifest_failure_aborts demoSpecs
      ⟨["w/post.list"], [], true, true, true, true, Option.some [⟨1, 2608, 100⟩], false, false⟩
      [("w/post.dump", "<archive>")] (by decide) (by decide)).2.1 (by decide),
   (C5_manifest_failure_aborts demoSpecs demoEnv
      [("w/post.dump", "<archive>")] (by decide) (by decide)).2.2 (by decide) [] rfl⟩

/-! ### Failed invocations leave the phase checkpoint unwritten (C6) -/

/-- C6: a failed external invocation never leaves a phase checkpoint
behind: for any section covering the pre-data (resp. post-data) dump whose
checkpoint is absent, a failed `pg_dump_db` makes the call return an error
with that checkpoint still absent; and a failed `pg_restore_db` in either
restore stage returns an error with that stage's checkpoint still
absent. -/
theorem C6_failed_tool_no_checkpoint (specs : CopyDataSpec) (env : Env) (fs : FS) :
    (∀ sect, sectionCoversPre sect = true →
       file_exists fs specs.doneFiles.preDataDump = false →
       env.pgDumpPreOk = false →
       (copydb_dump_source_schema specs env sect fs).1 = false
       ∧ file_exists (copydb_dump_source_schema specs env sect fs).2.1
           specs.doneFiles.preDataDump = false)
    ∧ (specs.wf →
       ∀ sect, sectionCoversPost sect = true →
       file_exists fs specs.doneFiles.postDataDump = false →
       env.pgDumpPostOk = false →
       (copydb_dump_source_schema specs env sect fs).1 = false
       ∧ file_exists (copydb_dump_source_schema specs env sect fs).2.1
           specs.doneFiles.postDataDump = false)
    ∧ (file_exists fs specs.doneFiles.preDataRestore = false →
       env.pgRestorePreOk = false →
       (copydb_target_prepare_schema specs env fs).1 = false
       ∧ file_exists (copydb_target_prepare_schema specs env fs).2.1
           specs.doneFiles.preDataRestore = false)
    ∧ (specs.wf →
       file_exists fs specs.doneFiles.postDataRestore = false →
       env.pgRestorePostOk = false →
       (copydb_target_finalize_schema specs env fs).1 = false
       ∧ file_exists (copydb_target_finalize_schema specs env fs).2.1
           specs.doneFiles.postDataRestore = false) := by
  refine ⟨?_, ?_, ?_, ?_⟩
  · intro sect hcov hmark hdump
    have hpre : (preDumpSub specs env fs)
        = (false, fs, [Event.dump "pre-data" specs.dumpPaths.preFilename]) := by
      rw [preDumpSub, hdump,
        runDumpSub_dumpFail env "pre-data" specs.doneFiles.preDataDump
          specs.dumpPaths.preFilename fs hmark]
    cases sect <;> simp only [sectionCoversPre] at hcov <;> try exact absurd hcov (by decide)
    · rw [dump_both_unfold specs env PostgresDumpSection.schemaOnly fs rfl rfl, hpre]
      simp [hmark]
    · rw [dump_preData_unfold, hpre]
      simp [hmark]
    · rw [dump_both_unfold specs env PostgresDumpSection.all fs rfl rfl, hpre]
      simp [hmark]
  · intro hwf sect hcov hmark hdump
    have hne1 : specs.doneFiles.postDataDump ≠ specs.doneFiles.preDataDump :=
      (wf_facts specs hwf).1
    have hne2 : specs.doneFiles.postDataDump ≠ specs.dumpPaths.preFilename :=
      (wf_facts specs hwf).2.1
    have hframe : file_exists (preDumpSub specs env fs).2.1
        specs.doneFiles.postDataDump = false := by
      rw [preDumpSub, runDumpSub_frame_exists env env.pgDumpPreOk "pre-data"
        specs.doneFiles.preDataDump specs.dumpPaths.preFilename fs
        specs.doneFiles.postDataDump hne1 hne2]
      exact hmark
    have hpost : ∀ fs2 : FS,
        file_exists fs2 specs.doneFiles.postDataDump = false →
        (postDumpSub specs env fs2).1 = false
        ∧ (postDumpSub specs env fs2).2.1 = fs2 := by
      intro fs2 hm2
      rw [postDumpSub, hdump,
        runDumpSub_dumpFail env "post-data" specs.doneFiles.postDataDump
          specs.dumpPaths.postFilename fs2 hm2]
      exact ⟨rfl, rfl⟩
    cases sect <;> simp only [sectionCoversPost] at hcov <;> try exact absurd hcov (by decide)
    · rw [dump_both_unfold specs env PostgresDumpSection.schemaOnly fs rfl rfl]
      by_cases hp : (preDumpSub specs env fs).1
      · rcases hpost (preDumpSub specs env fs).2.1 hframe with ⟨h1, h2⟩
        simp [hp, h1, h2, hframe]
      · simp only [hp, if_false, Bool.false_eq_true]
        exact ⟨by simp [hp], hframe⟩
    · rw [dump_postData_unfold]
      rcases hpost fs hmark with ⟨h1, h2⟩
      exact ⟨h1, by rw [h2]; exact hmark⟩
    · rw [dump_both_unfold specs env PostgresDumpSection.all fs rfl rfl]
      by_cases hp : (preDumpSub specs env fs).1
      · rcases hpost (preDumpSub specs env fs).2.1 hframe with ⟨h1, h2⟩
        simp [hp, h1, h2, hframe]
      · simp only [hp, if_false, Bool.false_eq_true]
        exact ⟨by simp [hp], hframe⟩
  · intro hmark hrest
    by_cases hd : file_exists fs specs.dumpPaths.preFilename
    · simp [copydb_target_prepare_schema, hd, hmark, hrest]
    · simp only [Bool.not_eq_true] at hd
      simp [copydb_target_prepare_schema, hd, hmark]
  · intro hwf hmark hrest
    have hne : specs.doneFiles.postDataRestore ≠ specs.dumpPaths.listFilename :=
      (wf_facts specs hwf).2.2
    by_cases hd : file_exists fs specs.dumpPaths.postFilename
    · cases hl : env.pgRestoreList with
      | none => simp [copydb_target_finalize_schema, hd, hmark, hl]
      | some contents =>
        by_cases hc : env.bufferCreateFails
        · simp [copydb_target_finalize_schema, hd, hmark, hl, hc]
        · by_cases hb : env.bufferBroken
          · simp [copydb_target_finalize_schema, hd, hmark, hl, hc, hb]
          · by_cases hw : specs.dumpPaths.listFilename ∈ env.writeFails
            · simp [copydb_target_finalize_schema, hd, hmark, hl, hc, hb,
                write_file, hw]
            · have heq : copydb_target_finalize_schema specs env fs
                  = (false,
                     writeFS fs specs.dumpPaths.listFilename
                       (buildManifest specs env fs contents),
                     [Event.restoreList specs.dumpPaths.postFilename,
                      Event.restoreDB specs.dumpPaths.postFilename
                        (Option.some specs.dumpPaths.listFilename)]) := by
                simp [copydb_target_finalize_schema, hd, hmark, hl, hc, hb,
                  write_file, hw, hrest]
              rw [heq]
              refine ⟨rfl, ?_⟩
              rw [file_exists, readFS_writeFS_ne _ _ _ _ hne]
              exact hmark
    · simp only [Bool.not_eq_true] at hd
      simp [copydb_target_finalize_schema, hd, hmark]

/-- C6 witness: on an empty working directory with every external
invocation failing, each of the four operations (dump with the `schema`
section covering both phases, dump with the post-data section, both
restore stages with their dump file present) fails and writes no phase
checkpoint. -/
theorem C6_witness :
    (sectionCoversPre PostgresDumpSection.schemaOnly = true
     ∧ (copydb_dump_source_schema demoSpecs
          ⟨[], [], false, false, false, false, Option.some [], false, false⟩
          PostgresDumpSection.schemaOnly []).1 = false
     ∧ file_exists (copydb_dump_source_schema demoSpecs
          ⟨[], [], false, false, false, false, Option.some [], false, false⟩
          PostgresDumpSection.schemaOnly []).2.1 demoSpecs.doneFiles.preDataDump = false)
    ∧ ((copydb_dump_source_schema demoSpecs
          ⟨[], [], false, false, false, false, Option.some [], false, false⟩
          PostgresDumpSection.postData []).1 = false
     ∧ file_exists (copydb_dump_source_schema demoSpecs
          ⟨[], [], false, false, false, false, Option.some [], false, false⟩
          PostgresDumpSection.postData []).2.1 demoSpecs.doneFiles.postDataDump = false)
    ∧ ((copydb_target_prepare_schema demoSpecs
          ⟨[], [], false, false, false, false, Option.some [], false, false⟩
          [("w/pre.dump", "<archive>")]).1 = false
     ∧ file_exists (copydb_target_prepare_schema demoSpecs
          ⟨[], [], false, false, false, false, Option.some [], false, false⟩
          [("w/pre.dump", "<archive>")]).2.1 demoSpecs.doneFiles.preDataRestore = false)
    ∧ ((copydb_target_finalize_schema demoSpecs
          ⟨[], [], false, false, false, false, Option.some [], false, false⟩
          [("w/post.dump", "<archive>")]).1 = false
     ∧ file_exists (copydb_target_finalize_schema demoSpecs
          ⟨[], [], false, false, false, false, Option.some [], false, false⟩
          [("w/post.dump", "<archive>")]).2.1 demoSpecs.doneFiles.postDataRestore = false) :=
  ⟨⟨by decide,
    (C6_failed_tool_no_checkpoint demoSpecs
      ⟨[], [], false, false, false, false, Option.some [], false, false⟩ []).1
      PostgresDumpSection.schemaOnly (by decide) (by decide) rfl⟩,
   (C6_failed_tool_no_checkpoint demoSpecs
      ⟨[], [], false, false, false, false, Option.some [], false, false⟩ []).2.1
      (by decide) PostgresDumpSection.postData (by decide) (by decide) rfl,
   (C6_failed_tool_no_checkpoint demoSpecs
      ⟨[], [], false, false, false, false, Option.some [], false, false⟩
      [("w/pre.dump", "<archive>")]).2.2.1 (by decide) rfl,
   (C6_failed_tool_no_checkpoint demoSpecs
      ⟨[], [], false, false, false, false, Option.some [], false, false⟩
      [("w/post.dump", "<archive>")]).2.2.2 (by decide) (by decide) rfl⟩

/-! ### Pre-data strictly before post-data (C8) -/

/-- The section labels of the dump invocations of a trace, in order. -/
def dumpLabels (tr : List Event) : List String :=
  tr.filterMap Event.dumpLabel

/-- A dump sub-section performs at most one dump invocation, carrying its
own section label. -/
theorem runDumpSub_trace (env : Env) (dumpOk : Bool)
    (label doneFile destFile : String) (fs : FS) :
    (runDumpSub env dumpOk label doneFile destFile fs).2.2 = []
    ∨ (runDumpSub env dumpOk label doneFile destFile fs).2.2
        = [Event.dump label destFile] := by
  unfold runDumpSub
  by_cases hx : file_exists fs doneFile
  · by_cases hw : doneFile ∈ env.writeFails <;> simp [hx, write_file, hw]
  · cases dumpOk
    · simp [hx]
    · by_cases hw : doneFile ∈ env.writeFails <;> simp [hx, write_file, hw]

/-- C8: for a section covering both sub-sections, the dump invocations in
the trace form a sublist of `["pre-data", "post-data"]` — each phase is
dumped at most once and pre-data strictly before post-data — and any
pre-data failure (failed dump invocation or failed checkpoint write) makes
the call fail with no post-data dump invocation and the post-data
checkpoint left exactly as it was. -/
theorem C8_pre_strictly_before_post (specs : CopyDataSpec) (env : Env) (fs : FS)
    (sect : PostgresDumpSection)
    (hpre : sectionCoversPre sect = true) (hpost : sectionCoversPost sect = true) :
    List.Sublist (dumpLabels (copydb_dump_source_schema specs env sect fs).2.2)
      ["pre-data", "post-data"]
    ∧ ((preDumpSub specs env fs).1 = false →
        (copydb_dump_source_schema specs env sect fs).1 = false
        ∧ Event.dump "post-data" specs.dumpPaths.postFilename
            ∉ (copydb_dump_source_schema specs env sect fs).2.2
        ∧ (specs.wf →
           file_exists (copydb_dump_source_schema specs env sect fs).2.1
               specs.doneFiles.postDataDump
             = file_exists fs specs.doneFiles.postDataDump)) := by
  have hu := dump_both_unfold specs env sect fs hpre hpost
  have t1 := runDumpSub_trace env env.pgDumpPreOk "pre-data"
      specs.doneFiles.preDataDump specs.dumpPaths.preFilename fs
  have t2 := runDumpSub_trace env env.pgDumpPostOk "post-data"
      specs.doneFiles.postDataDump specs.dumpPaths.postFilename
      (preDumpSub specs env fs).2.1
  rw [← preDumpSub] at t1
  rw [← postDumpSub] at t2
  constructor
  · by_cases hp : (preDumpSub specs env fs).1
    · rw [hu]
      simp only [hp, if_true]
      rcases t1 with t1 | t1 <;> rcases t2 with t2 | t2 <;>
        simp [dumpLabels, t1, t2, Event.dumpLabel]
    · rw [hu]
      simp only [hp, if_false, Bool.false_eq_true]
      rcases t1 with t1 | t1 <;> simp [dumpLabels, t1, Event.dumpLabel]
  · intro hp
    have hcall : copydb_dump_source_schema specs env sect fs = preDumpSub specs env fs := by
      rw [hu, if_neg (by simp [hp])]
    rw [hcall]
    refine ⟨hp, ?_, ?_⟩
    · rcases t1 with t1 | t1 <;> simp [t1]
    · intro hwf
      have hne1 : specs.doneFiles.postDataDump ≠ specs.doneFiles.preDataDump :=
        (wf_facts specs hwf).1
      have hne2 : specs.doneFiles.postDataDump ≠ specs.dumpPaths.preFilename :=
        (wf_facts specs hwf).2.1
      rw [preDumpSub]
      exact runDumpSub_frame_exists env env.pgDumpPreOk "pre-data"
        specs.doneFiles.preDataDump specs.dumpPaths.preFilename fs
        specs.doneFiles.postDataDump hne1 hne2

/-- C8 witness: with the `all` section on an empty working directory and a
failing pre-data dump, the trace's dump labels form a sublist of
`["pre-data", "post-data"]`, the call fails, no post-data dump invocation
happens and the post-data checkpoint stays absent. -/
theorem C8_witness :
    List.Sublist (dumpLabels (copydb_dump_source_schema demoSpecs
        ⟨[], [], false, true, true, true, Option.some [], false, false⟩
        PostgresDumpSection.all []).2.2)
      ["pre-data", "post-data"]
    ∧ ((copydb_dump_source_schema demoSpecs
          ⟨[], [], false, true, true, true, Option.some [], false, false⟩
          PostgresDumpSection.all []).1 = false
       ∧ Event.dump "post-data" demoSpecs.dumpPaths.postFilename
           ∉ (copydb_dump_source_schema demoSpecs
               ⟨[], [], false, true, true, true, Option.some [], false, false⟩
               PostgresDumpSection.all []).2.2
       ∧ (demoSpecs.wf →
          file_exists (copydb_dump_source_schema demoSpecs
              ⟨[], [], false, true, true, true, Option.some [], false, false⟩
              PostgresDumpSection.all []).2.1 demoSpecs.doneFiles.postDataDump
            = file_exists ([] : FS) demoSpecs.doneFiles.postDataDump)) :=
  ⟨(C8_pre_strictly_before_post demoSpecs
      ⟨[], [], false, true, true, true, Option.some [], false, false⟩
      [] PostgresDumpSection.all (by decide) (by decide)).1,
   (C8_pre_strictly_before_post demoSpecs
      ⟨[], [], false, true, true, true, Option.some [], false, false⟩
      [] PostgresDumpSection.all (by decide) (by decide)).2 (by decide)⟩

/-! ### The skip path still rewrites the phase marker (C10) -/

/-- C10: when a dump sub-section finds its phase checkpoint already
present, it still rewrites that marker file with empty content; the marker
write is the only file modification on the skip path, no dump is invoked,
and a failing marker write makes the whole call fail with the state
untouched even though no dump was performed. -/
theorem C10_skip_path_rewrites_marker (specs : CopyDataSpec) (env : Env) (fs : FS) :
    (file_exists fs specs.doneFiles.preDataDump = true →
       (specs.doneFiles.preDataDump ∉ env.writeFails →
          copydb_dump_source_schema specs env PostgresDumpSection.preData fs
            = (true, writeFS fs specs.doneFiles.preDataDump "", [])
          ∧ readFS (copydb_dump_source_schema specs env
                PostgresDumpSection.preData fs).2.1
              specs.doneFiles.preDataDump = Option.some ""
          ∧ ∀ p, p ≠ specs.doneFiles.preDataDump →
              readFS (copydb_dump_source_schema specs env
                  PostgresDumpSection.preData fs).2.1 p = readFS fs p)
       ∧ (specs.doneFiles.preDataDump ∈ env.writeFails →
            copydb_dump_source_schema specs env PostgresDumpSection.preData fs
              = (false, fs, [])))
    ∧ (file_exists fs specs.doneFiles.postDataDump = true →
       (specs.doneFiles.postDataDump ∉ env.writeFails →
          copydb_dump_source_schema specs env PostgresDumpSection.postData fs
            = (true, writeFS fs specs.doneFiles.postDataDump "", [])
          ∧ readFS (copydb_dump_source_schema specs env
                PostgresDumpSection.postData fs).2.1
              specs.doneFiles.postDataDump = Option.some ""
          ∧ ∀ p, p ≠ specs.doneFiles.postDataDump →
              readFS (copydb_dump_source_schema specs env
                  PostgresDumpSection.postData fs).2.1 p = readFS fs p)
       ∧ (specs.doneFiles.postDataDump ∈ env.writeFails →
            copydb_dump_source_schema specs env PostgresDumpSection.postData fs
              = (false, fs, []))) := by
  constructor
  · intro h
    have hs := runDumpSub_skip env env.pgDumpPreOk "pre-data"
      specs.doneFiles.preDataDump specs.dumpPaths.preFilename fs h
    constructor
    · intro hw
      have heq : copydb_dump_source_schema specs env PostgresDumpSection.preData fs
          = (true, writeFS fs specs.doneFiles.preDataDump "", []) := by
        rw [dump_preData_unfold, preDumpSub, hs, if_neg hw]
      refine ⟨heq, ?_, ?_⟩
      · rw [heq]
        exact readFS_writeFS_self fs specs.doneFiles.preDataDump ""
      · intro p hpne
        rw [heq]
        exact readFS_writeFS_ne fs specs.doneFiles.preDataDump p "" hpne
    · intro hw
      rw [dump_preData_unfold, preDumpSub, hs, if_pos hw]
  · intro h
    have hs := runDumpSub_skip env env.pgDumpPostOk "post-data"
      specs.doneFiles.postDataDump specs.dumpPaths.postFilename fs h
    constructor
    · intro hw
      have heq : copydb_dump_source_schema specs env PostgresDumpSection.postData fs
          = (true, writeFS fs specs.doneFiles.postDataDump "", []) := by
        rw [dump_postData_unfold, postDumpSub, hs, if_neg hw]
      refine ⟨heq, ?_, ?_⟩
      · rw [heq]
        exact readFS_writeFS_self fs specs.doneFiles.postDataDump ""
      · intro p hpne
        rw [heq]
        exact readFS_writeFS_ne fs specs.doneFiles.postDataDump p "" hpne
    · intro hw
      rw [dump_postData_unfold, postDumpSub, hs, if_pos hw]

/-- C10 witness: on a state holding both dump-phase checkpoints, the skip
path rewrites the marker with empty content leaving all other files alone,
and with a failing marker write the call errors with no dump performed. -/
theorem C10_witness :
    (copydb_dump_source_schema demoSpecs demoEnv PostgresDumpSection.preData
        [("w/pre.dump.done", "note"), ("w/post.dump.done", "note")]
      = (true, writeFS [("w/pre.dump.done", "note"), ("w/post.dump.done", "note")]
          "w/pre.dump.done" "", [])
     ∧ readFS (copydb_dump_source_schema demoSpecs demoEnv PostgresDumpSection.preData
          [("w/pre.dump.done", "note"), ("w/post.dump.done", "note")]).2.1
        "w/pre.dump.done" = Option.some "")
    ∧ copydb_dump_source_schema demoSpecs envWriteFailPreDone
        PostgresDumpSection.preData
        [("w/pre.dump.done", "note"), ("w/post.dump.done", "note")]
      = (false, [("w/pre.dump.done", "note"), ("w/post.dump.done", "note")], [])
    ∧ copydb_dump_source_schema demoSpecs demoEnv PostgresDumpSection.postData
        [("w/pre.dump.done", "note"), ("w/post.dump.done", "note")]
      = (true, writeFS [("w/pre.dump.done", "note"), ("w/post.dump.done", "note")]
          "w/post.dump.done" "", []) :=
  ⟨⟨((C10_skip_path_rewrites_marker demoSpecs demoEnv
        [("w/pre.dump.done", "note"), ("w/post.dump.done", "note")]).1
        (by decide)).1 (by decide) |>.1,
    ((C10_skip_path_rewrites_marker demoSpecs demoEnv
        [("w/pre.dump.done", "note"), ("w/post.dump.done", "note")]).1
        (by decide)).1 (by decide) |>.2.1⟩,
   ((C10_skip_path_rewrites_marker demoSpecs envWriteFailPreDone
        [("w/pre.dump.done", "note"), ("w/post.dump.done", "note")]).1
        (by decide)).2 (by decide),
   ((C10_skip_path_rewrites_marker demoSpecs demoEnv
        [("w/pre.dump.done", "note"), ("w/post.dump.done", "note")]).2
        (by decide)).1 (by decide) |>.1⟩
